import Mathlib

/-
Shallow embedding of the docker-stats-exporter collection pipeline:
the label sanitizer and extractor (internal/docker/labels.go), the
container filter (internal/docker/filter.go), the memory-stats
normalizer (internal/docker/stats.go), the TTL stats cache
(internal/collector/cache.go) and the scrape cycle of the container
collector (internal/collector/container.go).

Go machine integers (uint64, int64) are modelled as Nat / Int: none of
the translated code paths can overflow 64 bits on the inputs the
theorems quantify over, and the source performs no wrap-around
arithmetic.  Go maps are modelled as association lists looked up with
find?.  float64 values emitted as metric samples are modelled as
rationals; no verified claim depends on float rounding.  Compiled
regular expressions are modelled as opaque boolean match functions
(String -> Bool), exactly the interface MatchString exposes to
Filter.Match.  A Go panic is modelled as an Option-valued function
returning none.
-/

namespace Exporter

/-- Lookup in a Go string map modelled as an association list:
returns some value when the key is present. -/
def mapFind (m : List (String × String)) (k : String) : Option String :=
  (m.find? (fun p => p.fst == k)).map (fun p => p.snd)

/-- Go map indexing without the ok flag: a missing key yields the zero
value, the empty string. -/
def mapFindD (m : List (String × String)) (k : String) : String :=
  (mapFind m k).getD ""

/-- Characters kept by the sanitizer: the complement of the regex class
[^a-zA-Z0-9_:/.@=-] from labels.go, expressed on code points. -/
def isSafeLabelChar (c : Char) : Bool :=
  decide ((0x41 ≤ c.toNat ∧ c.toNat ≤ 0x5A) ∨ (0x61 ≤ c.toNat ∧ c.toNat ≤ 0x7A) ∨
    (0x30 ≤ c.toNat ∧ c.toNat ≤ 0x39) ∨ c.toNat = 0x5F ∨ c.toNat = 0x3A ∨ c.toNat = 0x2F ∨
    c.toNat = 0x2E ∨ c.toNat = 0x40 ∨ c.toNat = 0x3D ∨ c.toNat = 0x2D)

/-- Go's unicode.IsSpace: the Unicode White_Space code points, which is
what strings.TrimSpace trims. -/
def goIsSpace (c : Char) : Bool :=
  decide ((9 ≤ c.toNat ∧ c.toNat ≤ 13) ∨ c.toNat = 32 ∨ c.toNat = 0x85 ∨ c.toNat = 0xA0 ∨
    c.toNat = 0x1680 ∨ (0x2000 ≤ c.toNat ∧ c.toNat ≤ 0x200A) ∨ c.toNat = 0x2028 ∨
    c.toNat = 0x2029 ∨ c.toNat = 0x202F ∨ c.toNat = 0x205F ∨ c.toNat = 0x3000)

/-- strings.TrimSpace on the character list of a string: drop leading
and trailing white space. -/
def trimSpaceChars (l : List Char) : List Char :=
  ((l.dropWhile goIsSpace).reverse.dropWhile goIsSpace).reverse

/-- SanitizeLabelValue from labels.go: trim surrounding white space,
then replace every character outside the safe class with an
underscore. -/
def SanitizeLabelValue (s : String) : String :=
  ⟨(trimSpaceChars s.data).map (fun c => if isSafeLabelChar c then c else '_')⟩

/-- Per-interface network counters (stats.go NetworkStats). -/
structure NetworkStats where
  rxBytes : Nat := 0
  txBytes : Nat := 0
  rxPackets : Nat := 0
  txPackets : Nat := 0
  rxErrors : Nat := 0
  txErrors : Nat := 0
  rxDropped : Nat := 0
  txDropped : Nat := 0
deriving DecidableEq

/-- Per-device block I/O counters (stats.go BlockIOStats). -/
structure BlockIoStats where
  readBytes : Nat := 0
  writeBytes : Nat := 0
  readOps : Nat := 0
  writeOps : Nat := 0
deriving DecidableEq

/-- Parsed container statistics (stats.go Stats).  Field defaults are
the Go zero values the struct literal starts from.  time.Time values
are modelled as Int Unix timestamps with 0 standing for the zero
time. -/
structure Stats where
  memoryUsage : Nat := 0
  memoryLimit : Nat := 0
  memoryCache : Nat := 0
  memoryRSS : Nat := 0
  memorySwap : Nat := 0
  memoryWorkingSet : Nat := 0
  memoryFailcnt : Nat := 0
  cpuUsageTotal : Nat := 0
  cpuUsageSystem : Nat := 0
  cpuUsageUser : Nat := 0
  cpuThrottledPeriods : Nat := 0
  cpuThrottledTime : Nat := 0
  onlineCPUs : Nat := 0
  pidsCurrent : Nat := 0
  networks : List (String × NetworkStats) := []
  blockIo : List (String × BlockIoStats) := []
  containerID : String := ""
  name : String := ""
  image : String := ""
  labels : List (String × String) := []
  status : String := ""
  health : String := ""
  startedAt : Int := 0
  restartCount : Int := 0
  exitCode : Int := 0
  timestamp : Int := 0
deriving DecidableEq

/-- Basic container info from a list call (stats.go Container). -/
structure Container where
  id : String := ""
  name : String := ""
  image : String := ""
  labels : List (String × String) := []
  status : String := ""
  state : String := ""
  health : String := ""
  startedAt : Int := 0
  restartCount : Int := 0
  exitCode : Int := 0
deriving DecidableEq

/-- Standard Docker Compose label keys (labels.go). -/
def LabelComposeService : String := "com.docker.compose.service"

/-- Standard Docker Compose project label key (labels.go). -/
def LabelComposeProject : String := "com.docker.compose.project"

/-- The standard label set emitted with every metric (labels.go
ContainerLabels). -/
structure ContainerLabels where
  containerName : String
  composeService : String
  composeProject : String
  image : String
deriving DecidableEq

/-- LabelNames from labels.go: the label keys in fixed order. -/
def LabelNames : List String :=
  ["container_name", "compose_service", "compose_project", "image"]

/-- ExtractLabels from labels.go: build the standard label set from a
Container. -/
def ExtractLabels (c : Container) : ContainerLabels :=
  { containerName := SanitizeLabelValue c.name
    composeService := SanitizeLabelValue (mapFindD c.labels LabelComposeService)
    composeProject := SanitizeLabelValue (mapFindD c.labels LabelComposeProject)
    image := SanitizeLabelValue c.image }

/-- ExtractLabelsFromStats from labels.go: build the standard label set
from a Stats. -/
def ExtractLabelsFromStats (s : Stats) : ContainerLabels :=
  { containerName := SanitizeLabelValue s.name
    composeService := SanitizeLabelValue (mapFindD s.labels LabelComposeService)
    composeProject := SanitizeLabelValue (mapFindD s.labels LabelComposeProject)
    image := SanitizeLabelValue s.image }

/-- Values from labels.go: label values in the same order as
LabelNames. -/
def ContainerLabels.values (l : ContainerLabels) : List String :=
  [l.containerName, l.composeService, l.composeProject, l.image]

/-- Compiled container filter (filter.go).  A compiled regular
expression is abstracted to its MatchString function. -/
structure Filter where
  includeLabels : List (String × String)
  excludeLabels : List (String × String)
  includeNames : List (String → Bool)
  excludeNames : List (String → Bool)
  includeImages : List (String → Bool)
  excludeImages : List (String → Bool)
  hasIncludes : Bool

/-- matchesLabels from filter.go: some filter label key is present in
the container labels with a wildcard (empty) or equal value. -/
def matchesLabels (containerLabels filterLabels : List (String × String)) : Bool :=
  filterLabels.any fun kv =>
    match mapFind containerLabels kv.fst with
    | some cv => kv.snd == "" || cv == kv.snd
    | none => false

/-- matchesAny from filter.go: some compiled pattern matches the
string. -/
def matchesAny (s : String) (patterns : List (String → Bool)) : Bool :=
  patterns.any fun re => re s

/-- NewFilter from filter.go, after the label parsing and pattern
compilation already happened: records the six rule sets and derives the
hasIncludes flag. -/
def NewFilter (includeLabels excludeLabels : List (String × String))
    (includeNames excludeNames includeImages excludeImages : List (String → Bool)) : Filter :=
  ⟨includeLabels, excludeLabels, includeNames, excludeNames, includeImages, excludeImages,
    !includeLabels.isEmpty || !includeNames.isEmpty || !includeImages.isEmpty⟩

/-- Match from filter.go: excludes first across the three dimensions,
then the vacuous-include acceptance, then the include dimensions. -/
def Filter.Match (f : Filter) (c : Container) : Bool :=
  if matchesLabels c.labels f.excludeLabels then false
  else if matchesAny c.name f.excludeNames then false
  else if matchesAny c.image f.excludeImages then false
  else if !f.hasIncludes then true
  else if matchesLabels c.labels f.includeLabels then true
  else if matchesAny c.name f.includeNames then true
  else if matchesAny c.image f.includeImages then true
  else false

/-- One cache slot (cache.go cacheEntry): stats plus the time Set
stamped them. -/
structure CacheEntry where
  stats : Stats
  timestamp : Int
deriving DecidableEq

/-- The TTL stats cache (cache.go StatsCache).  Times are explicit Int
instants threaded through the operations in place of time.Now(). -/
structure StatsCache where
  entries : List (String × CacheEntry)
  ttl : Int
  enabled : Bool
  hits : Int
  misses : Int
deriving DecidableEq

/-- NewStatsCache from cache.go: empty entry map, counters at zero. -/
def NewStatsCache (ttl : Int) (enabled : Bool) : StatsCache :=
  ⟨[], ttl, enabled, 0, 0⟩

/-- Lookup of an entry map key, modelling Go map access with the ok
flag. -/
def cacheFind (entries : List (String × CacheEntry)) (id : String) : Option CacheEntry :=
  (entries.find? (fun p => p.fst == id)).map (fun p => p.snd)

/-- Go map assignment on the entry map: overwrite the key's binding. -/
def cacheInsert (entries : List (String × CacheEntry)) (id : String) (e : CacheEntry) :
    List (String × CacheEntry) :=
  (id, e) :: entries.filter (fun p => !(p.fst == id))

/-- What StatsCache.Get returns, together with the successor cache
state carrying the updated hit/miss counters. -/
structure GetResult where
  stats : Option Stats
  found : Bool
  cache : StatsCache
deriving DecidableEq

/-- Get from cache.go: a disabled cache always misses without touching
storage; otherwise a key is a hit iff present and no older than the
TTL (time.Since(timestamp) = now - timestamp). -/
def StatsCache.Get (c : StatsCache) (id : String) (now : Int) : GetResult :=
  if !c.enabled then ⟨none, false, { c with misses := c.misses + 1 }⟩
  else
    match cacheFind c.entries id with
    | none => ⟨none, false, { c with misses := c.misses + 1 }⟩
    | some entry =>
      if now - entry.timestamp > c.ttl then ⟨none, false, { c with misses := c.misses + 1 }⟩
      else ⟨some entry.stats, true, { c with hits := c.hits + 1 }⟩

/-- Set from cache.go: a no-op when disabled, otherwise unconditionally
overwrite with the current time stamp. -/
def StatsCache.Set (c : StatsCache) (id : String) (stats : Stats) (now : Int) : StatsCache :=
  if !c.enabled then c
  else { c with entries := cacheInsert c.entries id ⟨stats, now⟩ }

/-- Evict from cache.go: unconditional removal of one key. -/
def StatsCache.Evict (c : StatsCache) (id : String) : StatsCache :=
  { c with entries := c.entries.filter (fun p => !(p.fst == id)) }

/-- EvictStale from cache.go: delete every entry whose age exceeds the
TTL. -/
def StatsCache.EvictStale (c : StatsCache) (now : Int) : StatsCache :=
  { c with entries := c.entries.filter (fun p => !decide (now - p.snd.timestamp > c.ttl)) }

/-- The fields of the Docker SDK MemoryStats that parseMemoryStats
reads: the top-level counters plus the cgroup Stats map. -/
structure GoMemoryStats where
  usage : Nat := 0
  limit : Nat := 0
  failcnt : Nat := 0
  stats : List (String × Nat) := []
deriving DecidableEq

/-- Lookup in the cgroup stats map of GoMemoryStats. -/
def statLookup (m : List (String × Nat)) (k : String) : Option Nat :=
  (m.find? (fun p => p.fst == k)).map (fun p => p.snd)

/-- parseMemoryStats from stats.go: copy the top-level counters, pull
cache/rss/swap out of the cgroup map (rss falling back to the cgroup v2
key anon), and derive the working set as usage minus inactive_file
(falling back to total_inactive_file), clamped to usage. -/
def parseMemoryStats (s : Stats) (mem : GoMemoryStats) : Stats :=
  let s := { s with memoryUsage := mem.usage, memoryLimit := mem.limit,
                    memoryFailcnt := mem.failcnt }
  let s :=
    match statLookup mem.stats "cache" with
    | some v => { s with memoryCache := v }
    | none => s
  let s :=
    match statLookup mem.stats "rss" with
    | some v => { s with memoryRSS := v }
    | none =>
      match statLookup mem.stats "anon" with
      | some v => { s with memoryRSS := v }
      | none => s
  let s :=
    match statLookup mem.stats "swap" with
    | some v => { s with memorySwap := v }
    | none => s
  let inactiveFile :=
    match statLookup mem.stats "inactive_file" with
    | some v => v
    | none =>
      match statLookup mem.stats "total_inactive_file" with
      | some v => v
      | none => 0
  if mem.usage > inactiveFile then { s with memoryWorkingSet := mem.usage - inactiveFile }
  else { s with memoryWorkingSet := mem.usage }

/-- The metric descriptors of the container collector plus the exporter
self-metrics (internal/metrics/definitions.go). -/
inductive MetricFamily where
  | memoryUsage | memoryLimit | memoryCache | memoryRSS | memorySwap
  | memoryWorkingSet | memoryFailcnt
  | cpuUsageTotal | cpuUsageSystem | cpuUsageUser | cpuThrottledPeriods | cpuThrottledTime
  | networkRxBytes | networkTxBytes | networkRxPackets | networkTxPackets
  | networkRxErrors | networkTxErrors | networkRxDropped | networkTxDropped
  | fsReadBytes | fsWriteBytes | fsReadOps | fsWriteOps
  | pidsCurrent
  | containerLastSeen | containerStartTime | containerUptime | containerInfo
  | containerHealthStatus | containerRestartCount | containerExitCode
  | exporterScrapeDuration | exporterScrapeErrors
deriving DecidableEq

/-- The number of variable labels each descriptor declares
(definitions.go): 4 container labels, plus interface or device for the
network and block I/O families, 4 extra labels on container_info, and
one collector label on the self-metrics. -/
def MetricFamily.labelCount : MetricFamily → Nat
  | .networkRxBytes | .networkTxBytes | .networkRxPackets | .networkTxPackets
  | .networkRxErrors | .networkTxErrors | .networkRxDropped | .networkTxDropped => 5
  | .fsReadBytes | .fsWriteBytes | .fsReadOps | .fsWriteOps => 5
  | .containerInfo => 8
  | .exporterScrapeDuration | .exporterScrapeErrors => 1
  | _ => 4

/-- One named, labelled sample of the output snapshot.  float64 sample
values are modelled as rationals. -/
structure Metric where
  family : MetricFamily
  labelValues : List String
  value : ℚ
deriving DecidableEq

/-- SafeNewConstMetric from internal/metrics/helpers.go:
NewConstMetric fails on a label-count mismatch with the descriptor, and
the failure is turned into a nil (here: none) instead of a panic. -/
def SafeNewConstMetric (family : MetricFamily) (value : ℚ) (labelValues : List String) :
    Option Metric :=
  if labelValues.length = family.labelCount then some ⟨family, labelValues, value⟩ else none

/-- SendSafe from helpers.go: append the metric to the output when it
is non-nil, drop it otherwise.  The channel send is modelled as an
append to the emitted list. -/
def SendSafe (out : List Metric) (m : Option Metric) : List Metric :=
  match m with
  | some metric => out ++ [metric]
  | none => out

/-- NanosecondsToSeconds from helpers.go. -/
def NanosecondsToSeconds : ℚ := 1 / 1000000000

/-- HealthStatusToFloat from helpers.go. -/
def HealthStatusToFloat (status : String) : ℚ :=
  if status == "starting" then 1
  else if status == "healthy" then 2
  else if status == "unhealthy" then 3
  else 0

/-- emitMemoryMetrics from container.go. -/
def emitMemoryMetrics (out : List Metric) (s : Stats) (lv : List String) : List Metric :=
  let out := SendSafe out (SafeNewConstMetric .memoryUsage (s.memoryUsage : ℚ) lv)
  let out := SendSafe out (SafeNewConstMetric .memoryLimit (s.memoryLimit : ℚ) lv)
  let out := SendSafe out (SafeNewConstMetric .memoryCache (s.memoryCache : ℚ) lv)
  let out := SendSafe out (SafeNewConstMetric .memoryRSS (s.memoryRSS : ℚ) lv)
  let out := SendSafe out (SafeNewConstMetric .memorySwap (s.memorySwap : ℚ) lv)
  let out := SendSafe out (SafeNewConstMetric .memoryWorkingSet (s.memoryWorkingSet : ℚ) lv)
  SendSafe out (SafeNewConstMetric .memoryFailcnt (s.memoryFailcnt : ℚ) lv)

/-- emitCPUMetrics from container.go: nanosecond counters are converted
to seconds at emission. -/
def emitCPUMetrics (out : List Metric) (s : Stats) (lv : List String) : List Metric :=
  let out := SendSafe out
    (SafeNewConstMetric .cpuUsageTotal ((s.cpuUsageTotal : ℚ) * NanosecondsToSeconds) lv)
  let out := SendSafe out
    (SafeNewConstMetric .cpuUsageSystem ((s.cpuUsageSystem : ℚ) * NanosecondsToSeconds) lv)
  let out := SendSafe out
    (SafeNewConstMetric .cpuUsageUser ((s.cpuUsageUser : ℚ) * NanosecondsToSeconds) lv)
  let out := SendSafe out
    (SafeNewConstMetric .cpuThrottledPeriods (s.cpuThrottledPeriods : ℚ) lv)
  SendSafe out
    (SafeNewConstMetric .cpuThrottledTime ((s.cpuThrottledTime : ℚ) * NanosecondsToSeconds) lv)

/-- emitNetworkMetrics from container.go: one batch per interface, with
the interface name appended to the label values. -/
def emitNetworkMetrics (out : List Metric) (s : Stats) (lv : List String) : List Metric :=
  s.networks.foldl (fun out p =>
    let nlv := lv ++ [p.fst]
    let out := SendSafe out (SafeNewConstMetric .networkRxBytes (p.snd.rxBytes : ℚ) nlv)
    let out := SendSafe out (SafeNewConstMetric .networkTxBytes (p.snd.txBytes : ℚ) nlv)
    let out := SendSafe out (SafeNewConstMetric .networkRxPackets (p.snd.rxPackets : ℚ) nlv)
    let out := SendSafe out (SafeNewConstMetric .networkTxPackets (p.snd.txPackets : ℚ) nlv)
    let out := SendSafe out (SafeNewConstMetric .networkRxErrors (p.snd.rxErrors : ℚ) nlv)
    let out := SendSafe out (SafeNewConstMetric .networkTxErrors (p.snd.txErrors : ℚ) nlv)
    let out := SendSafe out (SafeNewConstMetric .networkRxDropped (p.snd.rxDropped : ℚ) nlv)
    SendSafe out (SafeNewConstMetric .networkTxDropped (p.snd.txDropped : ℚ) nlv)) out

/-- emitBlockIOMetrics from container.go: one batch per device, with
the device key appended to the label values. -/
def emitBlockIoMetrics (out : List Metric) (s : Stats) (lv : List String) : List Metric :=
  s.blockIo.foldl (fun out p =>
    let dlv := lv ++ [p.fst]
    let out := SendSafe out (SafeNewConstMetric .fsReadBytes (p.snd.readBytes : ℚ) dlv)
    let out := SendSafe out (SafeNewConstMetric .fsWriteBytes (p.snd.writeBytes : ℚ) dlv)
    let out := SendSafe out (SafeNewConstMetric .fsReadOps (p.snd.readOps : ℚ) dlv)
    SendSafe out (SafeNewConstMetric .fsWriteOps (p.snd.writeOps : ℚ) dlv)) out

/-- emitPIDsMetrics from container.go. -/
def emitPIDsMetrics (out : List Metric) (s : Stats) (lv : List String) : List Metric :=
  SendSafe out (SafeNewConstMetric .pidsCurrent (s.pidsCurrent : ℚ) lv)

/-- The RFC3339 rendering of a start time used as the created label on
container_info; the concrete formatting is irrelevant to every claim,
only that it is a label value, so it is abstracted to toString. -/
def timeFormatRFC3339 (t : Int) : String := toString t

/-- emitStateMetrics from container.go.  The Go code slices ctr.ID[:12]
for the container_info id label; on an ID shorter than 12 bytes that
slice expression panics, which is modelled by returning none. -/
def emitStateMetrics (out : List Metric) (ctr : Container) (lv : List String) (now : Int) :
    Option (List Metric) :=
  let out := SendSafe out (SafeNewConstMetric .containerLastSeen (now : ℚ) lv)
  let out :=
    if ctr.startedAt ≠ 0 then
      let out := SendSafe out (SafeNewConstMetric .containerStartTime (ctr.startedAt : ℚ) lv)
      SendSafe out (SafeNewConstMetric .containerUptime ((now - ctr.startedAt : Int) : ℚ) lv)
    else out
  if 12 ≤ ctr.id.length then
    let infoLV := lv ++ [⟨ctr.id.data.take 12⟩, ctr.status, ctr.health,
      timeFormatRFC3339 ctr.startedAt]
    let out := SendSafe out (SafeNewConstMetric .containerInfo 1 infoLV)
    let out := SendSafe out
      (SafeNewConstMetric .containerHealthStatus (HealthStatusToFloat ctr.health) lv)
    let out := SendSafe out (SafeNewConstMetric .containerRestartCount (ctr.restartCount : ℚ) lv)
    some (SendSafe out (SafeNewConstMetric .containerExitCode (ctr.exitCode : ℚ) lv))
  else none

/-- emitSelfMetrics from container.go: cycle duration and error count,
labelled with the collector name. -/
def emitSelfMetrics (out : List Metric) (duration : ℚ) (errors : Int) : List Metric :=
  let out := SendSafe out (SafeNewConstMetric .exporterScrapeDuration duration ["container"])
  SendSafe out (SafeNewConstMetric .exporterScrapeErrors (errors : ℚ) ["container"])

/-- The per-container result record of the fetch phase (the anonymous
result struct in Collect): the list-time container snapshot, the stats
when they were obtained, and whether the fetch errored. -/
structure FetchResult where
  container : Container
  stats : Option Stats
  err : Bool
deriving DecidableEq

/-- The DockerClient interface consumed by the collector, modelled as
the outcomes its two methods produce during one cycle: the ListContainers
result and a deterministic per-id GetContainerStats result. -/
structure DockerClientModel where
  listResult : Except String (List Container)
  fetchStats : String → Except String Stats

/-- The fetch phase of Collect (steps 3 of the loop body): non-running
containers get a state-only result without a cache lookup; running
containers consult the cache, and on a miss fetch, caching the stats on
success and flagging the result on error.  The bounded fork-join of the
Go code is modelled as its sequential serialization, which is one of
its admissible schedules; the cache state is threaded through. -/
def gatherLoop (client : DockerClientModel) (now : Int) :
    List Container → StatsCache → List FetchResult × StatsCache
  | [], cache => ([], cache)
  | ctr :: rest, cache =>
    if ctr.state ≠ "running" then
      let (rs, cache') := gatherLoop client now rest cache
      (⟨ctr, none, false⟩ :: rs, cache')
    else
      let g := cache.Get ctr.id now
      if g.found then
        let (rs, cache') := gatherLoop client now rest g.cache
        (⟨ctr, g.stats, false⟩ :: rs, cache')
      else
        match client.fetchStats ctr.id with
        | .ok s =>
          let (rs, cache') := gatherLoop client now rest (g.cache.Set ctr.id s now)
          (⟨ctr, some s, false⟩ :: rs, cache')
        | .error _ =>
          let (rs, cache') := gatherLoop client now rest g.cache
          (⟨ctr, none, true⟩ :: rs, cache')

/-- The five resource-metric emitters Collect runs for a container that
has stats, in source order. -/
def emitResourceMetrics (out : List Metric) (s : Stats) (lv : List String) : List Metric :=
  emitPIDsMetrics
    (emitBlockIoMetrics (emitNetworkMetrics (emitCPUMetrics (emitMemoryMetrics out s lv) s lv) s lv) s lv)
    s lv

/-- The emission loop of Collect (step 4): a result with a fetch error
is logged, counted and skipped before any emission; otherwise state
metrics are emitted for the container and resource metrics follow when
stats are present.  Returns none when emitStateMetrics panics. -/
def emitLoop (now : Int) : List FetchResult → Option (List Metric × Int)
  | [] => some ([], 0)
  | r :: rest =>
    if r.err then
      match emitLoop now rest with
      | some (ms, errs) => some (ms, errs + 1)
      | none => none
    else
      let lv := (ExtractLabels r.container).values
      match emitStateMetrics [] r.container lv now with
      | none => none
      | some stateOut =>
        let resourceOut :=
          match r.stats with
          | some s => emitResourceMetrics [] s lv
          | none => []
        match emitLoop now rest with
        | some (ms, errs) => some (stateOut ++ resourceOut ++ ms, errs)
        | none => none

/-- What one cycle leaves behind: the emitted snapshot, the per-cycle
error count, the cache state, and how many times EvictStale ran. -/
structure CollectOutput where
  metrics : List Metric
  scrapeErrors : Int
  cache : StatsCache
  evictStaleCalls : Nat
deriving DecidableEq

/-- Collect from container.go: list (on failure emit only the
self-metrics with one error and return), filter, fetch, emit, evict
stale cache entries, and append the self-metrics.  Returns none when
the emission phase panics. -/
def Collect (client : DockerClientModel) (filter : Filter) (cache : StatsCache)
    (now : Int) (duration : ℚ) : Option CollectOutput :=
  match client.listResult with
  | .error _ => some ⟨emitSelfMetrics [] duration 1, 1, cache, 0⟩
  | .ok containers =>
    let filtered := containers.filter (fun c => filter.Match c)
    let (results, cache1) := gatherLoop client now filtered cache
    match emitLoop now results with
    | none => none
    | some (ms, errs) =>
      some ⟨ms ++ emitSelfMetrics [] duration errs, errs, cache1.EvictStale now, 1⟩

/-- Specification-side description of what the emission loop produces:
per result, in order, nothing for a failed fetch, and the state block
followed by the resource block (when stats are present) otherwise. -/
def cycleMetrics (now : Int) (results : List FetchResult) : List Metric :=
  results.foldr (fun r acc =>
    if r.err then acc
    else
      let lv := (ExtractLabels r.container).values
      ((emitStateMetrics [] r.container lv now).getD []) ++
        (match r.stats with
         | some s => emitResourceMetrics [] s lv
         | none => []) ++ acc) []

/-- Specification-side error tally: the number of results whose fetch
failed. -/
def errCount (results : List FetchResult) : Int :=
  ((results.filter (fun r => r.err)).length : Int)

/-- A filter compiled from an empty configuration, as NewFilter builds
it for config.FiltersConfig zero values. -/
def exEmptyFilter : Filter := NewFilter [] [] [] [] [] []

/-- Example running container with a realistic-length id. -/
def exContainer1 : Container :=
  { id := "c1aaaaaaaaaaaaaa", name := "c1", image := "img1", state := "running" }

/-- Example running container whose stats fetch will fail. -/
def exContainer2 : Container :=
  { id := "c2aaaaaaaaaaaaaa", name := "c2", image := "img2", state := "running" }

/-- Example running container with a realistic-length id. -/
def exContainer3 : Container :=
  { id := "c3aaaaaaaaaaaaaa", name := "c3", image := "img3", state := "running" }

/-- Example stats returned for the first container. -/
def exStats1 : Stats := { memoryUsage := 100 }

/-- Example stats returned for the third container. -/
def exStats3 : Stats := { memoryUsage := 300 }

/-- Example client for a three-container cycle in which only the fetch
for the second container fails. -/
def exClient3 : DockerClientModel :=
  { listResult := .ok [exContainer1, exContainer2, exContainer3]
    fetchStats := fun id =>
      if id == exContainer1.id then .ok exStats1
      else if id == exContainer3.id then .ok exStats3
      else .error "timeout" }

/-- Example container whose opaque id has fewer than 12 characters. -/
def exShortIdContainer : Container := { id := "abc", name := "shorty", state := "running" }

/-- Example client whose ListContainers call fails. -/
def exClientListFail : DockerClientModel :=
  ⟨.error "connection refused", fun _ => .error "unreachable"⟩

/-- Example cache holding one entry that is already older than the
TTL. -/
def exStaleCache : StatsCache := ⟨[("old", ⟨{}, 0⟩)], 10, true, 0, 0⟩

/-- Safe characters are never white space: the sanitizer's keep-class
and Go's unicode.IsSpace are disjoint. -/
theorem safe_not_space (c : Char) (h : isSafeLabelChar c = true) : goIsSpace c = false := by
  simp only [isSafeLabelChar, decide_eq_true_eq] at h
  simp only [goIsSpace, decide_eq_false_iff_not]
  omega

/-- Every character of a sanitizer replacement pass is safe. -/
theorem mem_sanitizeMap_safe (l : List Char) :
    ∀ c ∈ l.map (fun c => if isSafeLabelChar c then c else '_'), isSafeLabelChar c = true := by
  intro c hc
  rcases List.mem_map.mp hc with ⟨a, _, rfl⟩
  cases h : isSafeLabelChar a
  · simp [h]
    decide
  · simp [h]

/-- Dropping leading white space from an all-safe character list is the
identity. -/
theorem dropWhile_goIsSpace_of_safe (l : List Char) (h : ∀ c ∈ l, isSafeLabelChar c = true) :
    l.dropWhile goIsSpace = l := by
  cases l with
  | nil => rfl
  | cons a t =>
    have ha : goIsSpace a = false := safe_not_space a (h a (List.mem_cons_self a t))
    simp [List.dropWhile, ha]

/-- Trimming an all-safe character list is the identity. -/
theorem trimSpaceChars_of_safe (l : List Char) (h : ∀ c ∈ l, isSafeLabelChar c = true) :
    trimSpaceChars l = l := by
  unfold trimSpaceChars
  rw [dropWhile_goIsSpace_of_safe l h,
    dropWhile_goIsSpace_of_safe l.reverse (fun c hc => h c (List.mem_reverse.mp hc)),
    List.reverse_reverse]

/-- The replacement pass is the identity on an all-safe character
list. -/
theorem sanitizeMap_of_safe (l : List Char) (h : ∀ c ∈ l, isSafeLabelChar c = true) :
    l.map (fun c => if isSafeLabelChar c then c else '_') = l := by
  induction l with
  | nil => rfl
  | cons a t ih =>
    have ha := h a (List.mem_cons_self a t)
    have iht := ih (fun c hc => h c (List.mem_cons_of_mem a hc))
    simp [ha, iht]

/-- C9: the label-value sanitizer is idempotent — SanitizeLabelValue
trims surrounding white space and replaces every character outside the
safe class with an underscore, and applying it twice equals applying it
once, for every string. -/
theorem sanitize_label_value_idempotent (x : String) :
    SanitizeLabelValue (SanitizeLabelValue x) = SanitizeLabelValue x := by
  have hsafe := mem_sanitizeMap_safe (trimSpaceChars x.data)
  show String.mk ((trimSpaceChars ((trimSpaceChars x.data).map
      (fun c => if isSafeLabelChar c then c else '_'))).map
      (fun c => if isSafeLabelChar c then c else '_')) =
    String.mk ((trimSpaceChars x.data).map (fun c => if isSafeLabelChar c then c else '_'))
  rw [trimSpaceChars_of_safe _ hsafe, sanitizeMap_of_safe _ hsafe]

/-- C10: label extraction from a list record and from a stats record
agree — for every Container and Stats carrying the same name, image and
label map, ExtractLabels and ExtractLabelsFromStats produce the same
sanitized 4-tuple. -/
theorem extract_labels_agreement (c : Container) (s : Stats)
    (hname : c.name = s.name) (himage : c.image = s.image) (hlabels : c.labels = s.labels) :
    ExtractLabels c = ExtractLabelsFromStats s := by
  simp [ExtractLabels, ExtractLabelsFromStats, hname, himage, hlabels]

/-- C10 witness: the agreement theorem applied to a concrete container
and stats record carrying identical identity fields. -/
theorem extract_labels_agreement_witness :
    ExtractLabels { name := "web", image := "nginx:1.25",
                    labels := [(LabelComposeService, "web"), (LabelComposeProject, "myapp")] } =
      ExtractLabelsFromStats { name := "web", image := "nginx:1.25",
                               labels := [(LabelComposeService, "web"),
                                          (LabelComposeProject, "myapp")] } :=
  extract_labels_agreement _ _ rfl rfl rfl

/-- C3: for every compiled filter and resource, an exclude match on any
dimension forces Match to false regardless of the includes; a filter
built from empty include and exclude sets matches every resource; and
when no exclude matches, Match is true when no include rules exist at
all, and otherwise true exactly when at least one include dimension
matches. -/
theorem filter_match_eq (f : Filter) (c : Container) :
    f.Match c = (!(matchesLabels c.labels f.excludeLabels || matchesAny c.name f.excludeNames ||
        matchesAny c.image f.excludeImages) &&
      (!f.hasIncludes ||
        (matchesLabels c.labels f.includeLabels || matchesAny c.name f.includeNames ||
          matchesAny c.image f.includeImages))) := by
  unfold Filter.Match
  cases matchesLabels c.labels f.excludeLabels <;>
    cases matchesAny c.name f.excludeNames <;>
      cases matchesAny c.image f.excludeImages <;>
        cases f.hasIncludes <;>
          cases matchesLabels c.labels f.includeLabels <;>
            cases matchesAny c.name f.includeNames <;>
              cases matchesAny c.image f.includeImages <;> rfl

theorem filter_match_precedence (il el : List (String × String))
    (inN exN inI exI : List (String → Bool)) (c : Container) :
    ((matchesLabels c.labels el || matchesAny c.name exN || matchesAny c.image exI) = true →
      (NewFilter il el inN exN inI exI).Match c = false) ∧
    ((NewFilter [] [] [] [] [] []).Match c = true) ∧
    ((matchesLabels c.labels el || matchesAny c.name exN || matchesAny c.image exI) = false →
      ((il.isEmpty && inN.isEmpty && inI.isEmpty) = true →
        (NewFilter il el inN exN inI exI).Match c = true) ∧
      ((il.isEmpty && inN.isEmpty && inI.isEmpty) = false →
        ((NewFilter il el inN exN inI exI).Match c = true ↔
          (matchesLabels c.labels il || matchesAny c.name inN ||
            matchesAny c.image inI) = true))) := by
  refine ⟨?_, ?_, ?_⟩
  · intro h
    simp [filter_match_eq, NewFilter, h]
  · simp [filter_match_eq, NewFilter, matchesLabels, matchesAny]
  · intro hex
    simp only [Bool.or_eq_false_iff] at hex
    obtain ⟨⟨h1, h2⟩, h3⟩ := hex
    refine ⟨?_, ?_⟩
    · intro hemp
      simp only [Bool.and_eq_true] at hemp
      obtain ⟨⟨hil, hinN⟩, hinI⟩ := hemp
      simp [filter_match_eq, NewFilter, h1, h2, h3, hil, hinN, hinI]
    · intro hemp
      have hcases : il.isEmpty = false ∨ inN.isEmpty = false ∨ inI.isEmpty = false := by
        by_cases hbi : il.isEmpty = true
        · by_cases hbn : inN.isEmpty = true
          · by_cases hbm : inI.isEmpty = true
            · rw [hbi, hbn, hbm] at hemp
              simp at hemp
            · exact Or.inr (Or.inr (Bool.eq_false_iff.mpr hbm))
          · exact Or.inr (Or.inl (Bool.eq_false_iff.mpr hbn))
        · exact Or.inl (Bool.eq_false_iff.mpr hbi)
      rcases hcases with hb | hb | hb <;>
        simp [filter_match_eq, NewFilter, h1, h2, h3, hb]

/-- C3 witness: a container matched both by an include label rule and
an exclude name pattern is rejected — exclude wins. -/
theorem filter_match_precedence_witness :
    (NewFilter [("monitoring", "true")] [] [] [fun s => s == "web"] [] []).Match
      { name := "web", labels := [("monitoring", "true")] } = false :=
  (filter_match_precedence [("monitoring", "true")] [] [] [fun s => s == "web"] [] []
    { name := "web", labels := [("monitoring", "true")] }).1 rfl

/-- C4: on an enabled cache, Get misses exactly when the key is absent
or the entry's age exceeds the TTL, returns the stored stats with found
= true otherwise, and never changes the entry map itself. -/
theorem cache_get_ttl_semantics (c : StatsCache) (id : String) (now : Int)
    (hen : c.enabled = true) :
    ((c.Get id now).found = false ↔
      cacheFind c.entries id = none ∨
        ∃ e, cacheFind c.entries id = some e ∧ now - e.timestamp > c.ttl) ∧
    (∀ e, cacheFind c.entries id = some e → now - e.timestamp ≤ c.ttl →
      (c.Get id now).stats = some e.stats ∧ (c.Get id now).found = true) ∧
    (c.Get id now).cache.entries = c.entries := by
  unfold StatsCache.Get
  cases hf : cacheFind c.entries id with
  | none => simp [hen, hf]
  | some e =>
    by_cases httl : now - e.timestamp > c.ttl
    · refine ⟨?_, ?_, ?_⟩ <;> simp [hen, hf, httl]
      omega
    · simp [hen, hf, httl]

/-- C4 witness: with TTL 10, an entry stored at time 0 read at time 20
is a miss and the same entry read at time 5 is a hit. -/
theorem cache_get_ttl_semantics_witness :
    ((((NewStatsCache 10 true).Set "c" {} 0).Get "c" 20).found = false) ∧
    ((((NewStatsCache 10 true).Set "c" {} 0).Get "c" 5).found = true) :=
  ⟨(cache_get_ttl_semantics ((NewStatsCache 10 true).Set "c" {} 0) "c" 20 rfl).1.mpr
      (Or.inr ⟨⟨{}, 0⟩, rfl, by decide⟩),
    ((cache_get_ttl_semantics ((NewStatsCache 10 true).Set "c" {} 0) "c" 5 rfl).2.1
      ⟨{}, 0⟩ rfl (by decide)).2⟩

/-- C5: on a disabled cache every Get reports a miss with no stats,
increments the miss counter and leaves storage untouched, every Set is
the identity, and Set followed by Get on the same key is a miss. -/
theorem cache_disabled_bypass (c : StatsCache) (id id2 : String) (s : Stats) (now now2 : Int)
    (hen : c.enabled = false) :
    (c.Get id now).found = false ∧ (c.Get id now).stats = none ∧
    (c.Get id now).cache.misses = c.misses + 1 ∧
    (c.Get id now).cache.entries = c.entries ∧
    c.Set id2 s now2 = c ∧
    ((c.Set id s now2).Get id now).found = false := by
  unfold StatsCache.Get StatsCache.Set
  simp [hen]

/-- C5 witness: the bypass theorem applied to a freshly constructed
disabled cache, giving the Set-then-Get miss. -/
theorem cache_disabled_bypass_witness :
    (((NewStatsCache 30 false).Set "k" {} 0).Get "k" 1).found = false :=
  (cache_disabled_bypass (NewStatsCache 30 false) "k" "k" {} 1 0 rfl).2.2.2.2.2

/-- Characterization of the working-set field parseMemoryStats stores:
usage minus the inactive-file reading when the latter is smaller, usage
otherwise. -/
theorem parseMemoryStats_workingSet (s : Stats) (mem : GoMemoryStats) :
    (parseMemoryStats s mem).memoryWorkingSet =
      (let inactiveFile :=
        match statLookup mem.stats "inactive_file" with
        | some v => v
        | none =>
          match statLookup mem.stats "total_inactive_file" with
          | some v => v
          | none => 0
      if mem.usage > inactiveFile then mem.usage - inactiveFile else mem.usage) := by
  unfold parseMemoryStats
  cases statLookup mem.stats "cache" <;>
    cases statLookup mem.stats "rss" <;>
      cases statLookup mem.stats "anon" <;>
        cases statLookup mem.stats "swap" <;>
          cases statLookup mem.stats "inactive_file" <;>
            cases statLookup mem.stats "total_inactive_file" <;>
              simp only [] <;> split <;> rfl

/-- Characterization of the resident-set field parseMemoryStats stores:
the rss key when present, otherwise the anon key, otherwise the field
of the input record. -/
theorem parseMemoryStats_rss (s : Stats) (mem : GoMemoryStats) :
    (parseMemoryStats s mem).memoryRSS =
      (match statLookup mem.stats "rss" with
       | some v => v
       | none =>
         match statLookup mem.stats "anon" with
         | some v => v
         | none => s.memoryRSS) := by
  unfold parseMemoryStats
  cases statLookup mem.stats "cache" <;>
    cases statLookup mem.stats "rss" <;>
      cases statLookup mem.stats "anon" <;>
        cases statLookup mem.stats "swap" <;>
          cases statLookup mem.stats "inactive_file" <;>
            cases statLookup mem.stats "total_inactive_file" <;>
              simp only [] <;> split <;> rfl

/-- C7: the stored working set is usage minus inactive_file (read from
the inactive_file key, falling back to total_inactive_file) whenever
that reading is smaller than usage, and exactly usage when the reading
is absent or not smaller. -/
theorem working_set_derivation (s : Stats) (mem : GoMemoryStats) :
    (∀ v, statLookup mem.stats "inactive_file" = some v →
      (v < mem.usage → (parseMemoryStats s mem).memoryWorkingSet = mem.usage - v) ∧
      (mem.usage ≤ v → (parseMemoryStats s mem).memoryWorkingSet = mem.usage)) ∧
    (statLookup mem.stats "inactive_file" = none →
      (∀ v, statLookup mem.stats "total_inactive_file" = some v →
        (v < mem.usage → (parseMemoryStats s mem).memoryWorkingSet = mem.usage - v) ∧
        (mem.usage ≤ v → (parseMemoryStats s mem).memoryWorkingSet = mem.usage)) ∧
      (statLookup mem.stats "total_inactive_file" = none →
        (parseMemoryStats s mem).memoryWorkingSet = mem.usage)) := by
  have hws := parseMemoryStats_workingSet s mem
  refine ⟨?_, ?_⟩
  · intro v hv
    rw [hv] at hws
    constructor
    · intro hlt
      rw [hws]
      simp [hlt]
    · intro hle
      rw [hws]
      simp [Nat.not_lt.mpr hle]
  · intro hnone
    rw [hnone] at hws
    refine ⟨?_, ?_⟩
    · intro v hv
      rw [hv] at hws
      constructor
      · intro hlt
        rw [hws]
        simp [hlt]
      · intro hle
        rw [hws]
        simp [Nat.not_lt.mpr hle]
    · intro hnone2
      rw [hnone2] at hws
      rw [hws]
      simp

/-- C7 witness: usage 104857600 with inactive_file 5242880 yields a
working set of 99614720, and an absent inactive_file yields the usage
itself. -/
theorem working_set_derivation_witness :
    (parseMemoryStats {}
        { usage := 104857600, stats := [("inactive_file", 5242880)] }).memoryWorkingSet =
      99614720 ∧
    (parseMemoryStats {} { usage := 104857600 }).memoryWorkingSet = 104857600 := by
  constructor
  · have h := ((working_set_derivation {}
      { usage := 104857600, stats := [("inactive_file", 5242880)] }).1 5242880 rfl).1
      (by decide)
    rw [h]
    decide
  · exact ((working_set_derivation {} { usage := 104857600 }).2 rfl).2 rfl

/-- C8: the stored resident-set field equals the rss key when present,
otherwise the cgroup v2 anon key when present, and otherwise stays at
the zero value it had in the freshly initialized record. -/
theorem memory_rss_schema_variant (s : Stats) (mem : GoMemoryStats) :
    (∀ v, statLookup mem.stats "rss" = some v → (parseMemoryStats s mem).memoryRSS = v) ∧
    (statLookup mem.stats "rss" = none →
      (∀ v, statLookup mem.stats "anon" = some v → (parseMemoryStats s mem).memoryRSS = v) ∧
      (statLookup mem.stats "anon" = none →
        (parseMemoryStats s mem).memoryRSS = s.memoryRSS)) := by
  have hrss := parseMemoryStats_rss s mem
  refine ⟨?_, ?_⟩
  · intro v hv
    rw [hv] at hrss
    exact hrss
  · intro hnone
    rw [hnone] at hrss
    refine ⟨?_, ?_⟩
    · intro v hv
      rw [hv] at hrss
      exact hrss
    · intro hnone2
      rw [hnone2] at hrss
      exact hrss

/-- C8 witness: a stats map containing anon but not rss resolves the
resident-set field to the anon value, and a map with neither key leaves
it at zero. -/
theorem memory_rss_schema_variant_witness :
    (parseMemoryStats {} { stats := [("anon", 65536000)] }).memoryRSS = 65536000 ∧
    (parseMemoryStats {} { stats := [] }).memoryRSS = 0 := by
  constructor
  · exact ((memory_rss_schema_variant {} { stats := [("anon", 65536000)] }).2 rfl).1
      65536000 rfl
  · exact ((memory_rss_schema_variant {} { stats := [] }).2 rfl).2 rfl

/-- C2 counterexample: emitting the state measurements for a record
whose opaque id has fewer than 12 characters does not complete — the
ctr.ID[:12] slice in emitStateMetrics panics, modelled as none — so the
claim that emission never raises for such a record is false on the
code. -/
theorem emit_state_short_id_aborts :
    emitStateMetrics [] exShortIdContainer ((ExtractLabels exShortIdContainer).values) 0 =
      none := rfl

/-- C2 amended: for every record whose id has at least 12 characters,
emitting the state measurements completes without raising; and a
measurement whose label values mismatch its descriptor count is dropped
by the safe constructor while the already emitted output is kept
unchanged, so the rest of the cycle proceeds. -/
theorem emit_state_no_shape_failure (out : List Metric) (ctr : Container) (lv : List String)
    (now : Int) (hid : 12 ≤ ctr.id.length) :
    (emitStateMetrics out ctr lv now).isSome = true ∧
    (∀ fam : MetricFamily, ∀ v : ℚ, ∀ lvs : List String,
      lvs.length ≠ fam.labelCount → SendSafe out (SafeNewConstMetric fam v lvs) = out) := by
  constructor
  · unfold emitStateMetrics
    simp [hid]
  · intro fam v lvs hmismatch
    simp [SendSafe, SafeNewConstMetric, hmismatch]

/-- C2 amended witness: state emission completes for a container with a
16-character id, and a 4-label value list aimed at the 8-label
container_info descriptor is dropped leaving the output unchanged. -/
theorem emit_state_no_shape_failure_witness :
    (emitStateMetrics [] exContainer1 ((ExtractLabels exContainer1).values) 0).isSome = true ∧
    SendSafe [] (SafeNewConstMetric .containerInfo 1 ["a", "b", "c", "d"]) = [] :=
  ⟨(emit_state_no_shape_failure [] exContainer1 ((ExtractLabels exContainer1).values) 0
      (by decide)).1,
    (emit_state_no_shape_failure [] exContainer1 ((ExtractLabels exContainer1).values) 0
      (by decide)).2 .containerInfo 1 ["a", "b", "c", "d"] (by decide)⟩

/-- C6 counterexample: in a cycle whose List call fails, Collect
returns right after the self-metrics without running EvictStale — the
stale entry (age 100 with TTL 10) is still in the cache and the
EvictStale call count is 0, so the claim that EvictStale runs once
unconditionally, including on a failed List, is false on the code. -/
theorem evict_stale_skipped_on_list_failure :
    ((Collect exClientListFail exEmptyFilter exStaleCache 100 0).map
      (fun out => (out.evictStaleCalls, out.cache.entries.length))) = some (0, 1) := rfl

/-- C6 amended: a cycle whose List call fails emits only the
self-metrics and never runs EvictStale; a cycle whose List call
succeeds runs EvictStale exactly once, at the end, on the cache state
left by the fetch phase; and EvictStale removes exactly the entries
whose age exceeds the TTL, keeping the younger ones. -/
theorem evict_stale_per_cycle_amended (client : DockerClientModel) (filter : Filter)
    (cache : StatsCache) (now : Int) (duration : ℚ) :
    (∀ e, client.listResult = .error e →
      Collect client filter cache now duration =
        some ⟨emitSelfMetrics [] duration 1, 1, cache, 0⟩) ∧
    (∀ cs, client.listResult = .ok cs →
      ∀ out, Collect client filter cache now duration = some out →
        out.evictStaleCalls = 1 ∧
        out.cache =
          ((gatherLoop client now (cs.filter (fun c => filter.Match c)) cache).2).EvictStale
            now) ∧
    (∀ c2 : StatsCache, ∀ p : String × CacheEntry,
      p ∈ (c2.EvictStale now).entries ↔ p ∈ c2.entries ∧ now - p.snd.timestamp ≤ c2.ttl) := by
  refine ⟨?_, ?_, ?_⟩
  · intro e he
    unfold Collect
    rw [he]
  · intro cs hcs out hout
    unfold Collect at hout
    rw [hcs] at hout
    simp only [] at hout
    rcases hg : gatherLoop client now (cs.filter (fun c => filter.Match c)) cache with
      ⟨results, cache1⟩
    rw [hg] at hout
    cases hemit : emitLoop now results with
    | none =>
      rw [hemit] at hout
      cases hout
    | some pr =>
      rcases pr with ⟨ms, errs⟩
      rw [hemit] at hout
      cases hout
      exact ⟨rfl, rfl⟩
  · intro c2 p
    simp [StatsCache.EvictStale, List.mem_filter, not_lt]

/-- C6 amended witness: the amended theorem applied to the concrete
failed-List cycle, showing the cache is returned untouched with zero
EvictStale runs. -/
theorem evict_stale_per_cycle_amended_witness :
    Collect exClientListFail exEmptyFilter exStaleCache 100 0 =
      some ⟨emitSelfMetrics [] 0 1, 1, exStaleCache, 0⟩ :=
  (evict_stale_per_cycle_amended exClientListFail exEmptyFilter exStaleCache 100 0).1
    "connection refused" rfl

/-- State emission completes whenever the container id has at least 12
characters. -/
theorem emitStateMetrics_isSome (out : List Metric) (ctr : Container) (lv : List String)
    (now : Int) (hid : 12 ≤ ctr.id.length) :
    (emitStateMetrics out ctr lv now).isSome = true := by
  unfold emitStateMetrics
  simp [hid]

/-- The emission loop produces exactly the per-result metric blocks of
cycleMetrics, skipping failed results entirely, and counts one error
per failed result. -/
theorem emitLoop_characterization (now : Int) (results : List FetchResult)
    (hids : ∀ r ∈ results, r.err = false → 12 ≤ r.container.id.length) :
    emitLoop now results = some (cycleMetrics now results, errCount results) := by
  induction results with
  | nil => rfl
  | cons r rest ih =>
    have ihh := ih (fun r2 hr2 => hids r2 (List.mem_cons_of_mem r hr2))
    cases herr : r.err with
    | true =>
      simp only [emitLoop, herr, if_true, ihh]
      simp only [cycleMetrics, errCount, List.foldr_cons, List.filter_cons, herr, if_true,
        List.length_cons]
      simp [cycleMetrics, errCount]
    | false =>
      have hid := hids r (List.mem_cons_self r rest) herr
      have hsome := emitStateMetrics_isSome [] r.container
        ((ExtractLabels r.container).values) now hid
      rcases Option.isSome_iff_exists.mp hsome with ⟨stateOut, hstate⟩
      simp only [emitLoop, herr, Bool.false_eq_true, if_false, hstate, ihh]
      simp [cycleMetrics, errCount, herr, hstate]

/-- C1 counterexample: in a three-container cycle where only the fetch
for container c2 fails, the error counter is 1 and full resource
measurements are present for c1 and c3 as the claim states, but the
output contains no measurement at all carrying c2's label value — in
particular no state measurements — so the claim that a failed-fetch
resource is emitted with state-only measurements is false on the
code. -/
theorem fetch_failure_state_metrics_counterexample :
    ((Collect exClient3 exEmptyFilter (NewStatsCache 0 false) 0 0).map
      (fun out => (out.scrapeErrors,
        out.metrics.any (fun m => m.labelValues.contains "c2"),
        out.metrics.any (fun m => decide (m.family = .memoryUsage) &&
          m.labelValues.contains "c1"),
        out.metrics.any (fun m => decide (m.family = .memoryUsage) &&
          m.labelValues.contains "c3")))) = some (1, false, true, true) := by
  decide

/-- C1 amended: in every cycle whose List call succeeds (and whose
surviving containers carry ids of at least 12 characters), the emitted
output consists of, per fetch result in order, nothing at all for a
resource whose fetch failed and the state block followed by the
resource block for every other resource, followed by the self-metrics;
and the per-cycle error counter equals the number of failed
fetches. -/
theorem fetch_failure_isolation_amended (client : DockerClientModel) (filter : Filter)
    (cache : StatsCache) (now : Int) (duration : ℚ) (cs : List Container)
    (hlist : client.listResult = .ok cs)
    (hids : ∀ r ∈ (gatherLoop client now (cs.filter (fun c => filter.Match c)) cache).1,
      r.err = false → 12 ≤ r.container.id.length) :
    Collect client filter cache now duration =
      some
        ⟨cycleMetrics now (gatherLoop client now (cs.filter (fun c => filter.Match c)) cache).1 ++
            emitSelfMetrics [] duration
              (errCount (gatherLoop client now (cs.filter (fun c => filter.Match c)) cache).1),
          errCount (gatherLoop client now (cs.filter (fun c => filter.Match c)) cache).1,
          ((gatherLoop client now (cs.filter (fun c => filter.Match c)) cache).2).EvictStale now,
          1⟩ := by
  unfold Collect
  rw [hlist]
  simp only []
  rcases hg : gatherLoop client now (cs.filter (fun c => filter.Match c)) cache with
    ⟨results, cache1⟩
  rw [hg] at hids
  rw [emitLoop_characterization now results hids]

/-- C1 amended witness: the amended theorem applied to the concrete
three-container cycle with one failing fetch, showing the cycle
completes. -/
theorem fetch_failure_isolation_amended_witness :
    (Collect exClient3 exEmptyFilter (NewStatsCache 0 false) 0 0).isSome = true := by
  rw [fetch_failure_isolation_amended exClient3 exEmptyFilter (NewStatsCache 0 false) 0 0
    [exContainer1, exContainer2, exContainer3] rfl (by decide)]
  rfl

end Exporter
